import Mathlib

/-!
Verification of the posture-metric engine of the desk-coach application
(`src/PoseWebcam.tsx`).  The per-frame pipeline is embedded shallowly:

* landmarks carry exact real coordinates and an optional visibility
  (`visibility ?? 0` in the source becomes `Option.getD  _ 0`);
* a frame is the ordered landmark array, indexed as in MediaPipe Pose
  (1/2 = eyes, 7/8 = ears, 11/12 = shoulders, 23 = left hip); an
  out-of-range or undefined entry is `none`;
* the geometric formulas (`angleToVertical`, the CVA `atan2`, the FSA
  inline computation) are translated over `ℝ`, with `Real.arccos`,
  `Real.sqrt` and `Complex.arg` standing for `Math.acos`, `Math.sqrt`
  and `Math.atan2`;
* the threshold classifiers are polymorphic over a linear ordered field,
  so they can be instantiated at `ℚ` (decidable) and at `ℝ` (pipeline);
* the component state (stored landmarks, three metric slots, calibration
  offset, persisted value) is an explicit record, with one step function
  per event: a pose-results frame, and the calibration button click.
-/

namespace DeskCoach

/-- A single pose landmark: normalized coordinates plus the optional
visibility score (`undefined` in the source becomes `none`). -/
structure Landmark where
  x : ℝ
  y : ℝ
  z : ℝ
  visibility : Option ℝ

/-- A frame: the indexed landmark array; an absent entry is `none`. -/
abbrev Frame := List (Option Landmark)

/-- Array indexing `results.poseLandmarks[i]`: out of range gives `none`. -/
def getLm (f : Frame) (i : ℕ) : Option Landmark := f.getD i none

/-- `lm.visibility ?? 0`. -/
def vis (l : Landmark) : ℝ := l.visibility.getD 0

/-- Visibility of an optional landmark, `0` when absent. -/
def visOpt : Option Landmark → ℝ
  | some l => vis l
  | none => 0

/-- A derived 2D point (mid-ear, mid-eye). -/
structure Pt where
  x : ℝ
  y : ℝ

/-- A derived 3D point (the synthetic neck). -/
structure Pt3 where
  x : ℝ
  y : ℝ
  z : ℝ

/-- `angleToVertical(a, b)` from the source: the angle in degrees between
the vector `b - a` and the upward image vector `(0, -1)`, computed as
`abs(acos(dot / mag) * 180 / π)`; `none` when an endpoint is absent or
the vector magnitude is zero. -/
noncomputable def angleToVertical (a b : Option Pt) : Option ℝ :=
  match a, b with
  | some a, some b =>
      let dx := b.x - a.x
      let dy := b.y - a.y
      let mag := Real.sqrt (dx * dx + dy * dy)
      if mag = 0 then none
      else
        let dot := dx * 0 + dy * (-1)
        some |Real.arccos (dot / mag) * 180 / Real.pi|
  | _, _ => none

/-- The synthetic neck point: midpoint of the two shoulder landmarks
(indices 11 and 12); absent when either shoulder is absent. -/
noncomputable def neckPoint (f : Frame) : Option Pt3 :=
  match getLm f 11, getLm f 12 with
  | some ls, some rs =>
      some ⟨(ls.x + rs.x) / 2, (ls.y + rs.y) / 2, (ls.z + rs.z) / 2⟩
  | _, _ => none

/-- Mid-ear point: midpoint of landmarks 7 and 8; absent when either is. -/
noncomputable def midEarPoint (f : Frame) : Option Pt :=
  match getLm f 7, getLm f 8 with
  | some l, some r => some ⟨(l.x + r.x) / 2, (l.y + r.y) / 2⟩
  | _, _ => none

/-- Mid-eye point: midpoint of landmarks 1 and 2; absent when either is. -/
noncomputable def midEyePoint (f : Frame) : Option Pt :=
  match getLm f 1, getLm f 2 with
  | some l, some r => some ⟨(l.x + r.x) / 2, (l.y + r.y) / 2⟩
  | _, _ => none

/-- NeckFlexion confidence as computed in the source: each pair (ears,
eyes) contributes half the sum of its two visibilities, and only when
both members of the pair are present; the total is then halved. -/
noncomputable def flexionConf (f : Frame) : ℝ :=
  let earPart : ℝ :=
    match getLm f 7, getLm f 8 with
    | some le, some re => vis le / 2 + vis re / 2
    | _, _ => 0
  let eyePart : ℝ :=
    match getLm f 1, getLm f 2 with
    | some le, some re => vis le / 2 + vis re / 2
    | _, _ => 0
  (earPart + eyePart) / 2

/-- The raw NeckFlexion angle: `angleToVertical(midEar, midEye)`. -/
noncomputable def flexionAngle (f : Frame) : Option ℝ :=
  angleToVertical (midEarPoint f) (midEyePoint f)

/-- `calibratedAngle`: the raw flexion angle minus the calibration offset
when both are available, the raw angle when no calibration is set,
absent when the raw angle is absent. -/
noncomputable def calibratedFlexion (f : Frame) (cal : Option ℝ) : Option ℝ :=
  match flexionAngle f, cal with
  | some a, some c => some (a - c)
  | some a, none => some a
  | none, _ => none

/-- NeckFlexion / FSA status thresholds: `≤ 15` Good, `≤ 20` Warn,
otherwise Alert.  Polymorphic so it can be read at `ℚ` and at `ℝ`. -/
def flexionStatus {α : Type} [LinearOrderedField α] (angle : α) : String :=
  if angle ≤ 15 then "Good" else if angle ≤ 20 then "Warn" else "Alert"

/-- CVA status thresholds: `≥ 48` Good, `≥ 44` Warn, otherwise Alert. -/
def cvaStatus {α : Type} [LinearOrderedField α] (angle : α) : String :=
  if 48 ≤ angle then "Good" else if 44 ≤ angle then "Warn" else "Alert"

/-- FSA status thresholds, written separately in the source with the same
bounds as NeckFlexion. -/
def fsaStatus {α : Type} [LinearOrderedField α] (angle : α) : String :=
  if angle ≤ 15 then "Good" else if angle ≤ 20 then "Warn" else "Alert"

/-- `Math.atan2(y, x)`, modelled by the complex argument of `x + y*i`. -/
noncomputable def atan2 (y x : ℝ) : ℝ := Complex.arg ⟨x, y⟩

/-- The CVA angle: `abs(atan2(-(midEar.y - neck.y), midEar.x - neck.x))`
in degrees; absent when neck or mid-ear is absent or the vector is
degenerate. -/
noncomputable def cvaAngle (f : Frame) : Option ℝ :=
  match neckPoint f, midEarPoint f with
  | some n, some me =>
      let dx := me.x - n.x
      let dy := me.y - n.y
      let mag := Real.sqrt (dx * dx + dy * dy)
      if mag = 0 then none
      else some |atan2 (-dy) dx * 180 / Real.pi|
  | _, _ => none

/-- CVA confidence: sum of the visibilities of the present landmarks
among left ear (7), right ear (8), left shoulder (11), right shoulder
(12), divided by the number present; `0` outside the neck/mid-ear
branch or when none is present. -/
noncomputable def cvaConf (f : Frame) : ℝ :=
  match neckPoint f, midEarPoint f with
  | some _, some _ =>
      let s1 : ℝ × ℕ :=
        match getLm f 7 with
        | some l => (vis l, 1)
        | none => (0, 0)
      let s2 : ℝ × ℕ :=
        match getLm f 8 with
        | some l => (s1.1 + vis l, s1.2 + 1)
        | none => s1
      let s3 : ℝ × ℕ :=
        match getLm f 11 with
        | some l => (s2.1 + vis l, s2.2 + 1)
        | none => s2
      let s4 : ℝ × ℕ :=
        match getLm f 12 with
        | some l => (s3.1 + vis l, s3.2 + 1)
        | none => s3
      if 0 < s4.2 then s4.1 / (s4.2 : ℝ) else 0
  | _, _ => 0

/-- The FSA angle, computed inline in the source with the same formula as
`angleToVertical`, on the vector from the neck to the left shoulder. -/
noncomputable def fsaAngle (f : Frame) : Option ℝ :=
  match neckPoint f, getLm f 11 with
  | some n, some ls =>
      let dx := ls.x - n.x
      let dy := ls.y - n.y
      let mag := Real.sqrt (dx * dx + dy * dy)
      if mag = 0 then none
      else
        let dot := dx * 0 + dy * (-1)
        some |Real.arccos (dot / mag) * 180 / Real.pi|
  | _, _ => none

/-- FSA confidence: sum of the visibilities of the present landmarks
among left shoulder (11), right shoulder (12), left hip (23), divided
by the number present; `0` outside the neck/left-shoulder branch. -/
noncomputable def fsaConf (f : Frame) : ℝ :=
  match neckPoint f, getLm f 11 with
  | some _, some _ =>
      let s1 : ℝ × ℕ :=
        match getLm f 11 with
        | some l => (vis l, 1)
        | none => (0, 0)
      let s2 : ℝ × ℕ :=
        match getLm f 12 with
        | some l => (s1.1 + vis l, s1.2 + 1)
        | none => s1
      let s3 : ℝ × ℕ :=
        match getLm f 23 with
        | some l => (s2.1 + vis l, s2.2 + 1)
        | none => s2
      if 0 < s3.2 then s3.1 / (s3.2 : ℝ) else 0
  | _, _ => 0

/-- One displayed metric: angle, status string, confidence. -/
structure Metric where
  angle : ℝ
  status : String
  confidence : ℝ

/-- The NeckFlexion metric published by `setNeckFlexion`: present exactly
when the calibrated angle is. -/
noncomputable def neckFlexionMetric (f : Frame) (cal : Option ℝ) : Option Metric :=
  match calibratedFlexion f cal with
  | some a => some ⟨a, flexionStatus a, flexionConf f⟩
  | none => none

/-- The CVA metric published by `setCVA`. -/
noncomputable def cvaMetric (f : Frame) : Option Metric :=
  match cvaAngle f with
  | some a => some ⟨a, cvaStatus a, cvaConf f⟩
  | none => none

/-- The FSA metric published by `setFSA`. -/
noncomputable def fsaMetric (f : Frame) : Option Metric :=
  match fsaAngle f with
  | some a => some ⟨a, fsaStatus a, fsaConf f⟩
  | none => none

/-- Component state: the stored landmark snapshot, the three metric
slots, the calibration offset, and the value persisted to storage. -/
structure EngineState where
  landmarks : Frame
  neckFlexion : Option Metric
  cva : Option Metric
  fsa : Option Metric
  calibration : Option ℝ
  store : Option ℝ

/-- Initial state: no landmarks, no metrics, no calibration. -/
def initState : EngineState := ⟨[], none, none, none, none, none⟩

/-- One `onResults` invocation with a landmark array present: stores the
landmarks and recomputes the three metrics; calibration is only read. -/
noncomputable def processFrame (s : EngineState) (f : Frame) : EngineState :=
  { s with
    landmarks := f
    neckFlexion := neckFlexionMetric f s.calibration
    cva := cvaMetric f
    fsa := fsaMetric f }

/-- A sequence of frames processed in order. -/
noncomputable def processFrames (s : EngineState) (fs : List Frame) : EngineState :=
  fs.foldl processFrame s

/-- The `Set Upright Calibration` click handler: when a NeckFlexion
metric is currently shown and a landmark snapshot is stored, recompute
the raw flexion angle from the snapshot; when that succeeds, store it as
the new calibration offset and persist it.  Every other path leaves the
state untouched. -/
noncomputable def pressCalibrate (s : EngineState) : EngineState :=
  if s.neckFlexion.isSome ∧ 0 < s.landmarks.length then
    match flexionAngle s.landmarks with
    | some a => { s with calibration := some a, store := some a }
    | none => s
  else s

/-- NeckFlexion confidence as the specification sentence words it, for
refinement comparison with `flexionConf`: the sum of the visibilities of
landmarks 7, 8, 1, 2 — an absent landmark counting as `0` — divided by
the fixed denominator `4`. -/
noncomputable def specFlexionConf (f : Frame) : ℝ :=
  (visOpt (getLm f 7) + visOpt (getLm f 8) +
    visOpt (getLm f 1) + visOpt (getLm f 2)) / 4

/-- A concrete present landmark at `(x, y)` with visibility `v`. -/
noncomputable def lmk (x y v : ℝ) : Option Landmark := some ⟨x, y, 0, some v⟩

/-- Concrete frame: both eyes at `(0,0)`, both ears at `(0,1)`, all with
visibility `1`, nothing else.  Its raw flexion angle is `0`. -/
noncomputable def f0 : Frame :=
  [none, lmk 0 0 1, lmk 0 0 1, none, none, none, none, lmk 0 1 1, lmk 0 1 1]

/-- Concrete frame: left ear present but right ear absent, both eyes
present, every present landmark with visibility `1`. -/
noncomputable def fOneEar : Frame :=
  [none, lmk 0 0 1, lmk 0 0 1, none, none, none, none, lmk 0 1 1]

/-- Concrete frame: ears and eyes all at the same point `(1/2, 1/2)`, so
mid-ear and mid-eye coincide. -/
noncomputable def fCoin : Frame :=
  [none, lmk (1/2) (1/2) 1, lmk (1/2) (1/2) 1, none, none, none, none,
   lmk (1/2) (1/2) 1, lmk (1/2) (1/2) 1]

/-- Concrete frame: shoulders vertically aligned at `(1/2,0)` and
`(1/2,1)` with visibility `1`, left hip present with visibility `0`.
Its FSA angle is `0` and its FSA confidence averages in the hip. -/
noncomputable def fHip : Frame :=
  [none, none, none, none, none, none, none, none, none, none, none,
   lmk (1/2) 0 1, lmk (1/2) 1 1,
   none, none, none, none, none, none, none, none, none, none,
   lmk (1/2) (9/10) 0]

/-! ### Evaluation lemmas for the concrete frames -/

theorem f0_midEar : midEarPoint f0 = some ⟨0, 1⟩ := by
  simp [midEarPoint, getLm, f0, lmk]

theorem f0_midEye : midEyePoint f0 = some ⟨0, 0⟩ := by
  simp [midEyePoint, getLm, f0, lmk]

theorem f0_flexionAngle : flexionAngle f0 = some 0 := by
  rw [flexionAngle, f0_midEar, f0_midEye, angleToVertical]
  norm_num [Real.arccos_one]

theorem f0_flexionConf : flexionConf f0 = 1 := by
  simp [flexionConf, getLm, f0, lmk, vis]
  norm_num

theorem f0_metric :
    (processFrame initState f0).neckFlexion = some ⟨0, "Good", 1⟩ := by
  simp [processFrame, initState, neckFlexionMetric, calibratedFlexion,
    f0_flexionAngle, f0_flexionConf]
  norm_num [flexionStatus]

theorem fCoin_midEar : midEarPoint fCoin = some ⟨1 / 2, 1 / 2⟩ := by
  simp [midEarPoint, getLm, fCoin, lmk]

theorem fCoin_midEye : midEyePoint fCoin = some ⟨1 / 2, 1 / 2⟩ := by
  simp [midEyePoint, getLm, fCoin, lmk]

theorem fHip_neck : neckPoint fHip = some ⟨1 / 2, 1 / 2, 0⟩ := by
  simp [neckPoint, getLm, fHip, lmk]

theorem fHip_fsaAngle : fsaAngle fHip = some 0 := by
  rw [fsaAngle, fHip_neck]
  have h11 : getLm fHip 11 = some ⟨1 / 2, 0, 0, some 1⟩ := rfl
  rw [h11]
  have hmag : Real.sqrt ((1 / 2 - 1 / 2) * (1 / 2 - 1 / 2) +
      ((0 : ℝ) - 1 / 2) * (0 - 1 / 2)) = 1 / 2 := by
    have h : ((1 / 2 - 1 / 2) * (1 / 2 - 1 / 2) +
        ((0 : ℝ) - 1 / 2) * (0 - 1 / 2)) = (1 / 2) ^ 2 := by norm_num
    rw [h, Real.sqrt_sq (by norm_num : (0 : ℝ) ≤ 1 / 2)]
  simp only [hmag]
  norm_num [Real.arccos_one]

theorem fHip_fsaConf : fsaConf fHip = 2 / 3 := by
  rw [fsaConf]
  rw [fHip_neck]
  have h11 : getLm fHip 11 = some ⟨1 / 2, 0, 0, some 1⟩ := rfl
  have h12 : getLm fHip 12 = some ⟨1 / 2, 1, 0, some 1⟩ := rfl
  have h23 : getLm fHip 23 = some ⟨1 / 2, 9 / 10, 0, some 0⟩ := rfl
  rw [h11, h12, h23]
  norm_num [vis]

theorem fHip_fsaMetric : fsaMetric fHip = some ⟨0, "Good", 2 / 3⟩ := by
  rw [fsaMetric, fHip_fsaAngle]
  norm_num [flexionStatus, fsaStatus, fHip_fsaConf]

/-! ### General helper lemmas -/

theorem arccos_deg_bounds (t : ℝ) :
    0 ≤ |Real.arccos t * 180 / Real.pi| ∧ |Real.arccos t * 180 / Real.pi| ≤ 180 := by
  have hpi := Real.pi_pos
  have h0 := Real.arccos_nonneg t
  have h1 := Real.arccos_le_pi t
  have hnn : 0 ≤ Real.arccos t * 180 / Real.pi :=
    div_nonneg (mul_nonneg h0 (by norm_num)) hpi.le
  refine ⟨abs_nonneg _, ?_⟩
  rw [abs_of_nonneg hnn, div_le_iff₀ hpi]
  nlinarith

theorem atan2_deg_bounds (y x : ℝ) :
    0 ≤ |atan2 y x * 180 / Real.pi| ∧ |atan2 y x * 180 / Real.pi| ≤ 180 := by
  have hpi := Real.pi_pos
  have h1 : |atan2 y x| ≤ Real.pi := Complex.abs_arg_le_pi _
  refine ⟨abs_nonneg _, ?_⟩
  rw [abs_div, abs_mul, abs_of_pos hpi, abs_of_nonneg (by norm_num : (0 : ℝ) ≤ 180),
    div_le_iff₀ hpi]
  nlinarith [abs_nonneg (atan2 y x)]

theorem angleToVertical_none_left (b : Option Pt) : angleToVertical none b = none := by
  cases b <;> rfl

theorem angleToVertical_none_right (a : Option Pt) : angleToVertical a none = none := by
  cases a <;> rfl

theorem angleToVertical_bounds {a b : Option Pt} {r : ℝ}
    (h : angleToVertical a b = some r) : 0 ≤ r ∧ r ≤ 180 := by
  cases a with
  | none => rw [angleToVertical_none_left] at h; cases h
  | some p =>
    cases b with
    | none => rw [angleToVertical_none_right] at h; cases h
    | some q =>
      rw [angleToVertical] at h
      simp only [] at h
      split_ifs at h with hmag
      cases h
      exact arccos_deg_bounds _

theorem flexionAngle_bounds {f : Frame} {r : ℝ} (h : flexionAngle f = some r) :
    0 ≤ r ∧ r ≤ 180 :=
  angleToVertical_bounds h

theorem cvaAngle_bounds {f : Frame} {r : ℝ} (h : cvaAngle f = some r) :
    0 ≤ r ∧ r ≤ 180 := by
  rw [cvaAngle] at h
  cases hn : neckPoint f with
  | none => rw [hn] at h; cases h
  | some n =>
    cases he : midEarPoint f with
    | none => rw [hn, he] at h; cases h
    | some me =>
      rw [hn, he] at h
      simp only [] at h
      split_ifs at h with hmag
      cases h
      exact atan2_deg_bounds _ _

theorem fsaAngle_bounds {f : Frame} {r : ℝ} (h : fsaAngle f = some r) :
    0 ≤ r ∧ r ≤ 180 := by
  rw [fsaAngle] at h
  cases hn : neckPoint f with
  | none => rw [hn] at h; cases h
  | some n =>
    cases hl : getLm f 11 with
    | none => rw [hn, hl] at h; cases h
    | some ls =>
      rw [hn, hl] at h
      simp only [] at h
      split_ifs at h with hmag
      cases h
      exact arccos_deg_bounds _

theorem midEar_some_of_flexion {f : Frame} {r : ℝ} (h : flexionAngle f = some r) :
    (midEarPoint f).isSome ∧ (midEyePoint f).isSome := by
  rw [flexionAngle] at h
  cases he : midEarPoint f with
  | none => rw [he, angleToVertical_none_left] at h; cases h
  | some p =>
    cases hy : midEyePoint f with
    | none => rw [he, hy, angleToVertical_none_right] at h; cases h
    | some q => simp

theorem midEar_parts {f : Frame} (h : (midEarPoint f).isSome) :
    (getLm f 7).isSome ∧ (getLm f 8).isSome := by
  rw [midEarPoint] at h
  cases h7 : getLm f 7 with
  | none => rw [h7] at h; cases h8 : getLm f 8 <;> rw [h8] at h <;> simp at h
  | some l =>
    cases h8 : getLm f 8 with
    | none => rw [h7, h8] at h; simp at h
    | some m => simp

theorem midEye_parts {f : Frame} (h : (midEyePoint f).isSome) :
    (getLm f 1).isSome ∧ (getLm f 2).isSome := by
  rw [midEyePoint] at h
  cases h1 : getLm f 1 with
  | none => rw [h1] at h; cases h2 : getLm f 2 <;> rw [h2] at h <;> simp at h
  | some l =>
    cases h2 : getLm f 2 with
    | none => rw [h1, h2] at h; simp at h
    | some m => simp

theorem neck_parts {f : Frame} (h : (neckPoint f).isSome) :
    (getLm f 11).isSome ∧ (getLm f 12).isSome := by
  rw [neckPoint] at h
  cases h11 : getLm f 11 with
  | none => rw [h11] at h; cases h12 : getLm f 12 <;> rw [h12] at h <;> simp at h
  | some l =>
    cases h12 : getLm f 12 with
    | none => rw [h11, h12] at h; simp at h
    | some m => simp

theorem flexion_frame_nonempty {f : Frame} {r : ℝ} (h : flexionAngle f = some r) :
    0 < f.length := by
  cases f with
  | nil =>
    have h7 : (getLm ([] : Frame) 7).isSome :=
      (midEar_parts (midEar_some_of_flexion h).1).1
    simp [getLm] at h7
  | cons a l => simp

/-! ### Claim theorems -/

/-- C1: status classification is exact at the boundaries: for NeckFlexion
(calibrated) and FSA an angle of exactly 15 is Good, any angle strictly
between 15 and 20 is Warn, exactly 20 is Warn, and any angle strictly
above 20 is Alert; for CVA exactly 48 is Good, any angle in `[44, 48)` is
Warn, exactly 44 is Warn, and any angle strictly below 44 is Alert. -/
theorem classification_boundaries :
    flexionStatus (15 : ℚ) = "Good" ∧
    (∀ a : ℚ, 15 < a → a < 20 → flexionStatus a = "Warn") ∧
    flexionStatus (20 : ℚ) = "Warn" ∧
    (∀ a : ℚ, 20 < a → flexionStatus a = "Alert") ∧
    fsaStatus (15 : ℚ) = "Good" ∧
    (∀ a : ℚ, 15 < a → a < 20 → fsaStatus a = "Warn") ∧
    fsaStatus (20 : ℚ) = "Warn" ∧
    (∀ a : ℚ, 20 < a → fsaStatus a = "Alert") ∧
    cvaStatus (48 : ℚ) = "Good" ∧
    (∀ a : ℚ, 44 ≤ a → a < 48 → cvaStatus a = "Warn") ∧
    cvaStatus (44 : ℚ) = "Warn" ∧
    (∀ a : ℚ, a < 44 → cvaStatus a = "Alert") := by
  refine ⟨by norm_num [flexionStatus], ?_, by norm_num [flexionStatus], ?_,
    by norm_num [fsaStatus], ?_, by norm_num [fsaStatus], ?_,
    by norm_num [cvaStatus], ?_, by norm_num [cvaStatus], ?_⟩
  · intro a h1 h2
    rw [flexionStatus, if_neg (by linarith), if_pos (by linarith)]
  · intro a h1
    rw [flexionStatus, if_neg (by linarith), if_neg (by linarith)]
  · intro a h1 h2
    rw [fsaStatus, if_neg (by linarith), if_pos (by linarith)]
  · intro a h1
    rw [fsaStatus, if_neg (by linarith), if_neg (by linarith)]
  · intro a h1 h2
    rw [cvaStatus, if_neg (by linarith), if_pos (by linarith)]
  · intro a h1
    rw [cvaStatus, if_neg (by linarith), if_neg (by linarith)]

/-- C1 witness: the universally quantified boundary cases instantiated at
concrete rational angles. -/
theorem classification_boundaries_witness :
    flexionStatus (16 : ℚ) = "Warn" ∧ flexionStatus (21 : ℚ) = "Alert" ∧
    fsaStatus (16 : ℚ) = "Warn" ∧ fsaStatus (21 : ℚ) = "Alert" ∧
    cvaStatus (45 : ℚ) = "Warn" ∧ cvaStatus (43 : ℚ) = "Alert" :=
  ⟨classification_boundaries.2.1 16 (by decide) (by decide),
   classification_boundaries.2.2.2.1 21 (by decide),
   classification_boundaries.2.2.2.2.2.1 16 (by decide) (by decide),
   classification_boundaries.2.2.2.2.2.2.2.1 21 (by decide),
   classification_boundaries.2.2.2.2.2.2.2.2.2.1 45 (by decide) (by decide),
   classification_boundaries.2.2.2.2.2.2.2.2.2.2.2 43 (by decide)⟩

/-- C7: when both shoulder landmarks are absent, the derived neck point is
absent, and consequently the CVA and FSA metrics of the frame's snapshot
are both absent. -/
theorem missing_shoulders_no_cva_fsa (f : Frame)
    (h11 : getLm f 11 = none) (h12 : getLm f 12 = none) :
    neckPoint f = none ∧ cvaAngle f = none ∧ fsaAngle f = none ∧
    ∀ s : EngineState, (processFrame s f).cva = none ∧ (processFrame s f).fsa = none := by
  have hn : neckPoint f = none := by rw [neckPoint, h11, h12]
  have hc : cvaAngle f = none := by
    rw [cvaAngle, hn]
  have hf : fsaAngle f = none := by
    rw [fsaAngle, hn]
  refine ⟨hn, hc, hf, fun s => ⟨?_, ?_⟩⟩
  · simp [processFrame, cvaMetric, hc]
  · simp [processFrame, fsaMetric, hf]

/-- C7 witness: the empty frame has no shoulders, hence no neck, CVA or
FSA. -/
theorem missing_shoulders_witness :
    neckPoint [] = none ∧ (processFrame initState []).cva = none ∧
    (processFrame initState []).fsa = none :=
  ⟨(missing_shoulders_no_cva_fsa [] rfl rfl).1,
   ((missing_shoulders_no_cva_fsa [] rfl rfl).2.2.2 initState).1,
   ((missing_shoulders_no_cva_fsa [] rfl rfl).2.2.2 initState).2⟩

/-- C8: when mid-ear and mid-eye are both defined and coincide exactly,
`angleToVertical` returns absent (the zero-magnitude guard takes the
`none` branch) and the NeckFlexion metric of the frame is absent; the
computation is total, so no exception is possible. -/
theorem coincident_midpoints_no_flexion (f : Frame) (p : Pt)
    (hEar : midEarPoint f = some p) (hEye : midEyePoint f = some p) :
    flexionAngle f = none ∧ ∀ s : EngineState, (processFrame s f).neckFlexion = none := by
  have h : flexionAngle f = none := by
    rw [flexionAngle, hEar, hEye, angleToVertical]
    simp
  exact ⟨h, fun s => by
    simp [processFrame, neckFlexionMetric, calibratedFlexion, h]⟩

/-- C8 witness: the frame whose ears and eyes all sit at `(1/2, 1/2)`. -/
theorem coincident_midpoints_witness :
    flexionAngle fCoin = none ∧ (processFrame initState fCoin).neckFlexion = none :=
  ⟨(coincident_midpoints_no_flexion fCoin ⟨1 / 2, 1 / 2⟩ fCoin_midEar fCoin_midEye).1,
   (coincident_midpoints_no_flexion fCoin ⟨1 / 2, 1 / 2⟩ fCoin_midEar fCoin_midEye).2
     initState⟩

/-- C9: when the raw NeckFlexion angle cannot be recomputed at the moment
of the calibration click (no current metric, empty snapshot, or an
uncomputable raw angle), the click leaves the whole state, and in
particular the calibration offset and the persisted value, unchanged. -/
theorem failed_calibration_leaves_state (s : EngineState)
    (h : s.neckFlexion = none ∨ s.landmarks.length = 0 ∨
      flexionAngle s.landmarks = none) :
    pressCalibrate s = s := by
  rcases h with h | h | h
  · rw [pressCalibrate, if_neg]
    simp [h]
  · rw [pressCalibrate, if_neg]
    simp [h]
  · by_cases hc : s.neckFlexion.isSome ∧ 0 < s.landmarks.length
    · rw [pressCalibrate, if_pos hc, h]
    · rw [pressCalibrate, if_neg hc]

/-- C9 witness: the initial state has no NeckFlexion metric, so the click
is a no-op there. -/
theorem failed_calibration_witness : pressCalibrate initState = initState :=
  failed_calibration_leaves_state initState (Or.inl rfl)

/-- C10: the CVA and FSA metrics of a processed frame are identical
whatever the rest of the state — in particular whatever the calibration
offset — is; only NeckFlexion reads the offset. -/
theorem calibration_only_affects_neckflexion (s₁ s₂ : EngineState) (f : Frame) :
    (processFrame s₁ f).cva = (processFrame s₂ f).cva ∧
    (processFrame s₁ f).fsa = (processFrame s₂ f).fsa :=
  ⟨rfl, rfl⟩

/-- C2: for every frame with a computable raw NeckFlexion angle, the
published NeckFlexion angle is the raw angle minus the calibration
offset when one is set and the raw angle otherwise; and processing any
sequence of frames never changes the offset, so a set offset is applied
to every subsequent frame until it is overwritten. -/
theorem calibration_offset_subtraction :
    (∀ (s : EngineState) (f : Frame) (r c : ℝ), flexionAngle f = some r →
      s.calibration = some c →
      ((processFrame s f).neckFlexion).map Metric.angle = some (r - c)) ∧
    (∀ (s : EngineState) (f : Frame) (r : ℝ), flexionAngle f = some r →
      s.calibration = none →
      ((processFrame s f).neckFlexion).map Metric.angle = some r) ∧
    (∀ (s : EngineState) (fs : List Frame),
      (processFrames s fs).calibration = s.calibration) := by
  refine ⟨?_, ?_, ?_⟩
  · intro s f r c hf hc
    simp [processFrame, neckFlexionMetric, calibratedFlexion, hf, hc]
  · intro s f r hf hc
    simp [processFrame, neckFlexionMetric, calibratedFlexion, hf, hc]
  · intro s fs
    induction fs generalizing s with
    | nil => rfl
    | cons f fs ih =>
      have h1 : processFrames s (f :: fs) = processFrames (processFrame s f) fs := rfl
      rw [h1, ih (processFrame s f)]
      rfl

/-- C2 witness: the frame `f0` (raw angle `0`) processed with offset `5`
publishes angle `0 - 5`, and with no offset publishes the raw angle. -/
theorem calibration_offset_subtraction_witness :
    ((processFrame { initState with calibration := some 5 } f0).neckFlexion).map
      Metric.angle = some (0 - 5) ∧
    ((processFrame initState f0).neckFlexion).map Metric.angle = some 0 :=
  ⟨calibration_offset_subtraction.1 { initState with calibration := some 5 } f0 0 5
     f0_flexionAngle rfl,
   calibration_offset_subtraction.2.1 initState f0 0 f0_flexionAngle rfl⟩

/-- C3: calibration idempotence — after a frame with a computable raw
angle is processed, clicking the calibration button and reprocessing the
same frame publishes a calibrated NeckFlexion angle of exactly `0`. -/
theorem calibration_idempotent (s : EngineState) (f : Frame) (r : ℝ)
    (h : flexionAngle f = some r) :
    ((processFrame (pressCalibrate (processFrame s f)) f).neckFlexion).map
      Metric.angle = some 0 := by
  have hlen : 0 < f.length := flexion_frame_nonempty h
  have hsome : (neckFlexionMetric f s.calibration).isSome := by
    cases hc : s.calibration <;>
      simp [neckFlexionMetric, calibratedFlexion, h, hc]
  have hcal : pressCalibrate (processFrame s f)
      = { processFrame s f with calibration := some r, store := some r } := by
    rw [pressCalibrate, if_pos]
    · have hl : (processFrame s f).landmarks = f := rfl
      rw [hl, h]
      rfl
    · exact ⟨hsome, hlen⟩
  rw [hcal]
  simp [processFrame, neckFlexionMetric, calibratedFlexion, h]

/-- C3 witness: the concrete frame `f0` from the initial state. -/
theorem calibration_idempotent_witness :
    ((processFrame (pressCalibrate (processFrame initState f0)) f0).neckFlexion).map
      Metric.angle = some 0 :=
  calibration_idempotent initState f0 0 f0_flexionAngle

theorem flexionAngle_of_calibrated {f : Frame} {cal : Option ℝ} {a : ℝ}
    (h : calibratedFlexion f cal = some a) : ∃ r, flexionAngle f = some r := by
  cases hr : flexionAngle f with
  | none =>
    cases cal <;> simp [calibratedFlexion, hr] at h
  | some r => exact ⟨r, rfl⟩

theorem cva_parts {f : Frame} {r : ℝ} (h : cvaAngle f = some r) :
    (neckPoint f).isSome ∧ (midEarPoint f).isSome := by
  rw [cvaAngle] at h
  cases hn : neckPoint f with
  | none => rw [hn] at h; cases h
  | some n =>
    cases he : midEarPoint f with
    | none => rw [hn, he] at h; cases h
    | some me => simp

theorem fsa_parts {f : Frame} {r : ℝ} (h : fsaAngle f = some r) :
    (neckPoint f).isSome ∧ (getLm f 11).isSome := by
  rw [fsaAngle] at h
  cases hn : neckPoint f with
  | none => rw [hn] at h; cases h
  | some n =>
    cases hl : getLm f 11 with
    | none => rw [hn, hl] at h; cases h
    | some ls => simp

/-- C6 counterexample: with a stored calibration offset of `90`, the
frame `f0` (raw flexion angle `0`) publishes a NeckFlexion metric whose
angle is `-90`, outside `[0, 180]`. -/
theorem calibrated_angle_out_of_range :
    ((processFrame { initState with calibration := some 90 } f0).neckFlexion).map
      Metric.angle = some (-90) ∧ ¬ (0 : ℝ) ≤ -90 := by
  constructor
  · simp [processFrame, neckFlexionMetric, calibratedFlexion, f0_flexionAngle]
  · norm_num

/-- C6 amended: the raw NeckFlexion, CVA and FSA angles all lie in
`[0, 180]`, and so do the angles of the published CVA and FSA metrics
and of the NeckFlexion metric when no calibration is set; when a
calibration offset `c ∈ [0, 180]` is set, the published NeckFlexion
angle lies in `[-180, 180]` and can be negative. -/
theorem metric_angle_ranges :
    (∀ (f : Frame) (r : ℝ), flexionAngle f = some r → 0 ≤ r ∧ r ≤ 180) ∧
    (∀ (f : Frame) (r : ℝ), cvaAngle f = some r → 0 ≤ r ∧ r ≤ 180) ∧
    (∀ (f : Frame) (r : ℝ), fsaAngle f = some r → 0 ≤ r ∧ r ≤ 180) ∧
    (∀ (s : EngineState) (f : Frame) (m : Metric),
      (processFrame s f).cva = some m → 0 ≤ m.angle ∧ m.angle ≤ 180) ∧
    (∀ (s : EngineState) (f : Frame) (m : Metric),
      (processFrame s f).fsa = some m → 0 ≤ m.angle ∧ m.angle ≤ 180) ∧
    (∀ (s : EngineState) (f : Frame) (m : Metric), s.calibration = none →
      (processFrame s f).neckFlexion = some m → 0 ≤ m.angle ∧ m.angle ≤ 180) ∧
    (∀ (s : EngineState) (f : Frame) (m : Metric) (c : ℝ), s.calibration = some c →
      0 ≤ c → c ≤ 180 →
      (processFrame s f).neckFlexion = some m → -180 ≤ m.angle ∧ m.angle ≤ 180) := by
  refine ⟨fun f r h => flexionAngle_bounds h, fun f r h => cvaAngle_bounds h,
    fun f r h => fsaAngle_bounds h, ?_, ?_, ?_, ?_⟩
  · intro s f m h
    have h2 : cvaMetric f = some m := h
    rw [cvaMetric] at h2
    cases ha : cvaAngle f with
    | none => rw [ha] at h2; cases h2
    | some a =>
      rw [ha] at h2
      cases h2
      exact cvaAngle_bounds ha
  · intro s f m h
    have h2 : fsaMetric f = some m := h
    rw [fsaMetric] at h2
    cases ha : fsaAngle f with
    | none => rw [ha] at h2; cases h2
    | some a =>
      rw [ha] at h2
      cases h2
      exact fsaAngle_bounds ha
  · intro s f m hc h
    have h2 : neckFlexionMetric f none = some m := by
      have h3 : neckFlexionMetric f s.calibration = some m := h
      rwa [hc] at h3
    cases hr : flexionAngle f with
    | none => simp [neckFlexionMetric, calibratedFlexion, hr] at h2
    | some r =>
      have h4 : neckFlexionMetric f none
          = some ⟨r, flexionStatus r, flexionConf f⟩ := by
        simp [neckFlexionMetric, calibratedFlexion, hr]
      rw [h4] at h2
      cases h2
      exact flexionAngle_bounds hr
  · intro s f m c hc hc0 hc180 h
    have h2 : neckFlexionMetric f (some c) = some m := by
      have h3 : neckFlexionMetric f s.calibration = some m := h
      rwa [hc] at h3
    cases hr : flexionAngle f with
    | none => simp [neckFlexionMetric, calibratedFlexion, hr] at h2
    | some r =>
      have h4 : neckFlexionMetric f (some c)
          = some ⟨r - c, flexionStatus (r - c), flexionConf f⟩ := by
        simp [neckFlexionMetric, calibratedFlexion, hr]
      rw [h4] at h2
      cases h2
      have hb := flexionAngle_bounds hr
      exact ⟨by show -180 ≤ r - c; linarith [hb.1, hb.2],
        by show r - c ≤ 180; linarith [hb.1, hb.2]⟩

/-- C6 amended witness: the NeckFlexion metric of `f0` from the initial
(uncalibrated) state has its angle inside `[0, 180]`. -/
theorem metric_angle_ranges_witness :
    (0 : ℝ) ≤ (Metric.mk 0 "Good" 1).angle ∧ (Metric.mk 0 "Good" 1).angle ≤ 180 :=
  metric_angle_ranges.2.2.2.2.2.1 initState f0 ⟨0, "Good", 1⟩ rfl f0_metric

theorem neck_fields {f : Frame} {l11 l12 : Landmark}
    (h11 : getLm f 11 = some l11) (h12 : getLm f 12 = some l12) :
    neckPoint f = some ⟨(l11.x + l12.x) / 2, (l11.y + l12.y) / 2, (l11.z + l12.z) / 2⟩ := by
  rw [neckPoint, h11, h12]

/-- C4 counterexample: in frame `fHip` the FSA metric is produced with
confidence `2/3`, while the unweighted mean visibility of the landmarks
actually used to compute the FSA angle (the two shoulders, both fully
visible) is `1`. -/
theorem fsa_confidence_includes_hip :
    ((processFrame initState fHip).fsa).map Metric.confidence = some (2 / 3) ∧
    (visOpt (getLm fHip 11) + visOpt (getLm fHip 12)) / 2 = 1 ∧
    ((2 : ℝ) / 3) ≠ 1 := by
  refine ⟨?_, ?_, by norm_num⟩
  · have h : (processFrame initState fHip).fsa = fsaMetric fHip := rfl
    rw [h, fHip_fsaMetric]
    rfl
  · have h11 : getLm fHip 11 = some ⟨1 / 2, 0, 0, some 1⟩ := rfl
    have h12 : getLm fHip 12 = some ⟨1 / 2, 1, 0, some 1⟩ := rfl
    rw [h11, h12]
    norm_num [visOpt, vis]

/-- C4 amended: the NeckFlexion and CVA confidences are the unweighted
mean of the visibilities of exactly the landmarks used to compute the
angle (ears and eyes, respectively ears and shoulders, all necessarily
present when the metric exists); the FSA confidence is the mean over the
present landmarks of left shoulder, right shoulder and left hip, where
the left hip is not used in the FSA angle. -/
theorem metric_confidence_formulas :
    (∀ (f : Frame) (cal : Option ℝ) (m : Metric), neckFlexionMetric f cal = some m →
      (getLm f 7).isSome ∧ (getLm f 8).isSome ∧
      (getLm f 1).isSome ∧ (getLm f 2).isSome ∧
      m.confidence = (visOpt (getLm f 7) + visOpt (getLm f 8) +
        visOpt (getLm f 1) + visOpt (getLm f 2)) / 4) ∧
    (∀ (f : Frame) (m : Metric), cvaMetric f = some m →
      (getLm f 7).isSome ∧ (getLm f 8).isSome ∧
      (getLm f 11).isSome ∧ (getLm f 12).isSome ∧
      m.confidence = (visOpt (getLm f 7) + visOpt (getLm f 8) +
        visOpt (getLm f 11) + visOpt (getLm f 12)) / 4) ∧
    (∀ (f : Frame) (m : Metric), fsaMetric f = some m →
      (getLm f 11).isSome ∧ (getLm f 12).isSome ∧
      m.confidence =
        (if (getLm f 23).isSome then
          (visOpt (getLm f 11) + visOpt (getLm f 12) + visOpt (getLm f 23)) / 3
         else (visOpt (getLm f 11) + visOpt (getLm f 12)) / 2)) := by
  refine ⟨?_, ?_, ?_⟩
  · intro f cal m hm
    cases ha : calibratedFlexion f cal with
    | none => simp [neckFlexionMetric, ha] at hm
    | some a =>
      have hm2 : neckFlexionMetric f cal = some ⟨a, flexionStatus a, flexionConf f⟩ := by
        simp [neckFlexionMetric, ha]
      rw [hm2] at hm
      cases hm
      obtain ⟨r, hr⟩ := flexionAngle_of_calibrated ha
      have hme := midEar_some_of_flexion hr
      obtain ⟨h7s, h8s⟩ := midEar_parts hme.1
      obtain ⟨h1s, h2s⟩ := midEye_parts hme.2
      obtain ⟨l7, h7⟩ := Option.isSome_iff_exists.mp h7s
      obtain ⟨l8, h8⟩ := Option.isSome_iff_exists.mp h8s
      obtain ⟨l1, h1⟩ := Option.isSome_iff_exists.mp h1s
      obtain ⟨l2, h2⟩ := Option.isSome_iff_exists.mp h2s
      refine ⟨h7s, h8s, h1s, h2s, ?_⟩
      show flexionConf f = _
      rw [flexionConf, h7, h8, h1, h2]
      simp only [visOpt]
      ring
  · intro f m hm
    cases ha : cvaAngle f with
    | none => simp [cvaMetric, ha] at hm
    | some a =>
      have hm2 : cvaMetric f = some ⟨a, cvaStatus a, cvaConf f⟩ := by
        simp [cvaMetric, ha]
      rw [hm2] at hm
      cases hm
      obtain ⟨hns, hes⟩ := cva_parts ha
      obtain ⟨h11s, h12s⟩ := neck_parts hns
      obtain ⟨h7s, h8s⟩ := midEar_parts hes
      obtain ⟨l7, h7⟩ := Option.isSome_iff_exists.mp h7s
      obtain ⟨l8, h8⟩ := Option.isSome_iff_exists.mp h8s
      obtain ⟨l11, h11⟩ := Option.isSome_iff_exists.mp h11s
      obtain ⟨l12, h12⟩ := Option.isSome_iff_exists.mp h12s
      obtain ⟨n, hn⟩ := Option.isSome_iff_exists.mp hns
      obtain ⟨me, he⟩ := Option.isSome_iff_exists.mp hes
      refine ⟨h7s, h8s, h11s, h12s, ?_⟩
      show cvaConf f = _
      rw [cvaConf, hn, he, h7, h8, h11, h12]
      simp only [visOpt]
      push_cast
      ring
  · intro f m hm
    cases ha : fsaAngle f with
    | none => simp [fsaMetric, ha] at hm
    | some a =>
      have hm2 : fsaMetric f = some ⟨a, fsaStatus a, fsaConf f⟩ := by
        simp [fsaMetric, ha]
      rw [hm2] at hm
      cases hm
      obtain ⟨hns, h11s⟩ := fsa_parts ha
      obtain ⟨h11s2, h12s⟩ := neck_parts hns
      obtain ⟨l11, h11⟩ := Option.isSome_iff_exists.mp h11s
      obtain ⟨l12, h12⟩ := Option.isSome_iff_exists.mp h12s
      obtain ⟨n, hn⟩ := Option.isSome_iff_exists.mp hns
      refine ⟨h11s, h12s, ?_⟩
      show fsaConf f = _
      cases h23 : getLm f 23 with
      | none =>
        rw [fsaConf, hn, h11, h12, h23]
        simp only [visOpt, h11, h12, h23, Option.isSome_none]
        push_cast
        ring
      | some l23 =>
        rw [fsaConf, hn, h11, h12, h23]
        simp only [visOpt, h11, h12, h23, Option.isSome_some]
        push_cast
        ring

/-- C4 amended witness: the FSA conjunct instantiated at the concrete
frame `fHip`, whose left hip is present. -/
theorem metric_confidence_formulas_witness :
    (getLm fHip 11).isSome ∧ (getLm fHip 12).isSome ∧
    (Metric.mk 0 "Good" (2 / 3)).confidence =
      (if (getLm fHip 23).isSome then
        (visOpt (getLm fHip 11) + visOpt (getLm fHip 12) + visOpt (getLm fHip 23)) / 3
       else (visOpt (getLm fHip 11) + visOpt (getLm fHip 12)) / 2) :=
  metric_confidence_formulas.2.2 fHip ⟨0, "Good", 2 / 3⟩ fHip_fsaMetric

/-- C5 counterexample: in `fOneEar` the left ear is present with
visibility 1 but the right ear is absent; the source computes the
flexion confidence `1/2` (the lone present ear contributes nothing),
while the claimed formula — the four visibilities summed with absent
landmarks counting `0`, over the fixed denominator 4 — gives `3/4`. -/
theorem flexion_confidence_pair_gating :
    flexionConf fOneEar = 1 / 2 ∧ specFlexionConf fOneEar = 3 / 4 ∧
    ((1 : ℝ) / 2) ≠ 3 / 4 := by
  refine ⟨?_, ?_, by norm_num⟩
  · simp [flexionConf, getLm, fOneEar, lmk, vis]
  · simp [specFlexionConf, getLm, fOneEar, lmk, visOpt, vis]
    norm_num

/-- C5 amended: the NeckFlexion confidence does divide by the fixed
denominator 4, but an ear or eye pair contributes its visibilities only
when both members of the pair are present — a present landmark whose
partner is absent contributes 0; when all four landmarks are present the
confidence equals the claimed sum-over-4 formula. -/
theorem flexion_confidence_fixed_denominator (f : Frame) :
    flexionConf f =
      ((match getLm f 7, getLm f 8 with
        | some a, some b => vis a + vis b
        | _, _ => 0) +
       (match getLm f 1, getLm f 2 with
        | some a, some b => vis a + vis b
        | _, _ => 0)) / 4 ∧
    ((getLm f 7).isSome → (getLm f 8).isSome → (getLm f 1).isSome →
      (getLm f 2).isSome → flexionConf f = specFlexionConf f) := by
  constructor
  · rw [flexionConf]
    cases getLm f 7 <;> cases getLm f 8 <;> cases getLm f 1 <;> cases getLm f 2 <;>
      · simp only []
        ring
  · intro h7s h8s h1s h2s
    obtain ⟨l7, h7⟩ := Option.isSome_iff_exists.mp h7s
    obtain ⟨l8, h8⟩ := Option.isSome_iff_exists.mp h8s
    obtain ⟨l1, h1⟩ := Option.isSome_iff_exists.mp h1s
    obtain ⟨l2, h2⟩ := Option.isSome_iff_exists.mp h2s
    rw [flexionConf, specFlexionConf, h7, h8, h1, h2]
    simp only [visOpt]
    ring

/-- C5 amended witness: for the concrete frame `f0` (all four landmarks
present) the two formulas agree. -/
theorem flexion_confidence_fixed_denominator_witness :
    flexionConf f0 = specFlexionConf f0 :=
  (flexion_confidence_fixed_denominator f0).2 rfl rfl rfl rfl

end DeskCoach
